import Mathlib

/-!
# x/distribution module wiring (`x/distribution/module.go`)

A shallow embedding of the application-module layer of the distribution
module.  The file under study contains no arithmetic: every function is glue
between the host (codec, configurator, dependency injection) and the keeper
package.  What can be said about it is therefore *which* collaborator calls
it makes, in which order, with which arguments, and what it returns.

The embedding is a small state-and-trace monad `Go`:

* the mutable world (KV store behind the context, configurator tables, ...)
  is one value of an arbitrary type `σ`;
* every call that leaves `module.go` is appended to a trace of `Call`s and
  answered by a function supplied by the caller (`Externals`, `JSONCodec`,
  `Configurator`), so every theorem holds for all implementations of the
  collaborators;
* a Go `panic` is the outcome `Outcome.panicked`, which stops the function.
-/

namespace Distribution

/-! ## Go values -/

/-- Byte strings: `json.RawMessage` is `[]byte`. -/
abbrev RawMessage : Type := List (Fin 256)

/-- A Go `error` value.  Errors made by collaborators are `external`; the only
error `module.go` builds itself is the `*fmt.wrapError` of `fmt.Errorf` with a
`%w` verb, which stores the formatted message and the wrapped error. -/
inductive GoError where
  | external (msg : String)
  | wrapError (msg : String) (err : GoError)
  deriving DecidableEq, Repr

/-- Method `Error()` of a Go error. -/
def GoError.Error : GoError → String
  | GoError.external msg => msg
  | GoError.wrapError msg _ => msg

/-- Method `Unwrap()` as seen by `errors.Unwrap`. -/
def GoError.Unwrap : GoError → Option GoError
  | GoError.external _ => none
  | GoError.wrapError _ err => some err

/-- The value carried by a Go panic: `panic(err)` or `panic(string)`. -/
inductive PanicValue where
  | error (err : GoError)
  | string (msg : String)
  deriving DecidableEq, Repr

/-- A Go slice, keeping the difference between the nil slice and an allocated
slice (`[]T{}` is allocated and empty). -/
inductive Slice (α : Type) where
  | nil
  | mk (elems : List α)
  deriving DecidableEq, Repr

/-- Builtin `len` on slices. -/
def Slice.len {α : Type} : Slice α → Nat
  | Slice.nil => 0
  | Slice.mk elems => elems.length

/-- Test `s != nil` on slices. -/
def Slice.isNonNil {α : Type} : Slice α → Bool
  | Slice.nil => false
  | Slice.mk _ => true

/-- A Go `map[string]V`: the nil map, or a table.  A Go map holds at most one
entry under a key; the table is an association list read with `List.lookup`,
so a list with a repeated key stands for the map of its first bindings. -/
inductive GoMap (V : Type) where
  | nil
  | mk (entries : List (String × V))
  deriving DecidableEq, Repr

/-- The two-result index expression `v, ok := m[key]`; `none` is `ok = false`.
Indexing a nil map is allowed and finds nothing. -/
def GoMap.index {V : Type} : GoMap V → String → Option V
  | GoMap.nil, _ => none
  | GoMap.mk entries, key => entries.lookup key

/-! ## Types declared outside `module.go` -/

/-- The types `module.go` only passes around.  Their declarations live in other
packages; nothing in `module.go` looks inside them, so they are parameters.
`zeroGenesisState` is the zero value of `types.GenesisState`, the content of a
variable declared with `var`. -/
structure Sig where
  Context : Type
  RequestBeginBlock : Type
  GenesisState : Type
  zeroGenesisState : GenesisState
  ValidatorUpdate : Type
  TxEncodingConfig : Type
  Keeper : Type
  AccountKeeper : Type
  BankKeeper : Type
  StakingKeeper : Type
  Subspace : Type
  KVStoreKey : Type
  AccAddress : Type
  GrpcServer : Type
  MsgServer : Type
  QueryServer : Type
  Migrator : Type
  StakingHooks : Type
  GovHandler : Type

/-- Interface `codec.JSONCodec` (the methods `module.go` calls).  `codec.Codec`
embeds it.  The unmarshalling methods write through a pointer: they receive
the current content of the target and give back its new content. -/
structure JSONCodec (S : Sig) where
  MustMarshalJSON : S.GenesisState → Except PanicValue RawMessage
  UnmarshalJSON : RawMessage → S.GenesisState → Option GoError × S.GenesisState
  MustUnmarshalJSON : RawMessage → S.GenesisState → Except PanicValue S.GenesisState

/-- The method values `m.Migrate1to2` and `m.Migrate2to3` of a migrator `m`. -/
inductive MigrationHandler (S : Sig) where
  | Migrate1to2 (m : S.Migrator)
  | Migrate2to3 (m : S.Migrator)

/-- The argument list of `keeper.NewKeeper`, in order. -/
structure NewKeeperArgs (S : Sig) where
  cdc : JSONCodec S
  key : S.KVStoreKey
  ak : S.AccountKeeper
  bk : S.BankKeeper
  sk : S.StakingKeeper
  feeCollectorName : String
  authority : String

/-- One call leaving `module.go`, with its arguments. -/
inductive Call (S : Sig) where
  | MustMarshalJSON (o : S.GenesisState)
  | UnmarshalJSON (bz : RawMessage)
  | MustUnmarshalJSON (bz : RawMessage)
  | ValidateGenesis (data : S.GenesisState)
  | keeperInitGenesis (k : S.Keeper) (ctx : S.Context) (data : S.GenesisState)
  | keeperExportGenesis (k : S.Keeper) (ctx : S.Context)
  | BeginBlocker (ctx : S.Context) (req : S.RequestBeginBlock) (k : S.Keeper)
  | RegisterMsgServer (s : S.GrpcServer) (srv : S.MsgServer)
  | RegisterQueryServer (s : S.GrpcServer) (srv : S.QueryServer)
  | RegisterMigration (moduleName : String) (fromVersion : Nat) (handler : MigrationHandler S)
  | NewKeeper (args : NewKeeperArgs S)

/-! ## The execution monad -/

/-- How a Go call ends: it returns a value or it panics. -/
inductive Outcome (α : Type) where
  | ret (a : α)
  | panicked (v : PanicValue)
  deriving DecidableEq, Repr

/-- Reading a collaborator's answer as an outcome. -/
def Outcome.ofExcept {α : Type} : Except PanicValue α → Outcome α
  | Except.ok a => Outcome.ret a
  | Except.error v => Outcome.panicked v

/-- The world: the mutable state reachable by the collaborators and the trace
of calls made so far (oldest first). -/
structure World (S : Sig) (σ : Type) where
  store : σ
  calls : List (Call S)

/-- A Go computation: from a world to an outcome and the world it left. -/
def Go (S : Sig) (σ α : Type) : Type := World S σ → Outcome α × World S σ

/-- Returning a value changes nothing. -/
def Go.pure {S : Sig} {σ α : Type} (a : α) : Go S σ α :=
  fun w => (Outcome.ret a, w)

/-- Sequencing: a panic of the first computation ends the whole. -/
def Go.bind {S : Sig} {σ α β : Type} (x : Go S σ α) (f : α → Go S σ β) : Go S σ β :=
  fun w =>
    match x w with
    | (Outcome.ret a, w1) => f a w1
    | (Outcome.panicked v, w1) => (Outcome.panicked v, w1)

instance instMonadGo {S : Sig} {σ : Type} : Monad (Go S σ) where
  pure := Go.pure
  bind := Go.bind

/-- Builtin `panic(v)`. -/
def goPanic {S : Sig} {σ α : Type} (v : PanicValue) : Go S σ α :=
  fun w => (Outcome.panicked v, w)

/-- A call to a collaborator that may read and write the world: the call is
recorded, then answered by `f`. -/
def Go.call {S : Sig} {σ α : Type} (ev : Call S) (f : σ → Outcome α × σ) : Go S σ α :=
  fun w => ((f w.store).1, { store := (f w.store).2, calls := w.calls ++ [ev] })

/-- A call to a collaborator that does not touch the world. -/
def Go.callPure {S : Sig} {σ α : Type} (ev : Call S) (r : Outcome α) : Go S σ α :=
  Go.call ev (fun s => (r, s))

/-! ## Collaborators -/

/-- Functions and constants of other packages used by `module.go`.  Those that
act on the chain state take and return the store and may panic; constructors
and functions whose Go signature ends in `error` return their result. -/
structure Externals (S : Sig) (σ : Type) where
  /-- Constant `types.ModuleName`. -/
  ModuleName : String
  /-- Constant `types.RouterKey`. -/
  RouterKey : String
  /-- Constant `govtypes.ModuleName`. -/
  govModuleName : String
  /-- Constant `authtypes.FeeCollectorName`. -/
  FeeCollectorName : String
  /-- Function `types.ValidateGenesis`. -/
  ValidateGenesis : S.GenesisState → Option GoError
  /-- Method `keeper.Keeper.InitGenesis`. -/
  keeperInitGenesis : S.Keeper → S.Context → S.GenesisState → σ → Outcome Unit × σ
  /-- Method `keeper.Keeper.ExportGenesis`. -/
  keeperExportGenesis : S.Keeper → S.Context → σ → Outcome S.GenesisState × σ
  /-- Function `BeginBlocker` of `abci.go`. -/
  BeginBlocker : S.Context → S.RequestBeginBlock → S.Keeper → σ → Outcome Unit × σ
  /-- Function `types.RegisterMsgServer`. -/
  RegisterMsgServer : S.GrpcServer → S.MsgServer → σ → Outcome Unit × σ
  /-- Function `types.RegisterQueryServer`. -/
  RegisterQueryServer : S.GrpcServer → S.QueryServer → σ → Outcome Unit × σ
  /-- Constructor `keeper.NewMsgServerImpl`. -/
  NewMsgServerImpl : S.Keeper → S.MsgServer
  /-- Constructor `keeper.NewQuerier`. -/
  NewQuerier : S.Keeper → S.QueryServer
  /-- Constructor `keeper.NewMigrator`. -/
  NewMigrator : S.Keeper → S.Subspace → S.Migrator
  /-- Constructor `keeper.NewKeeper`. -/
  NewKeeper : NewKeeperArgs S → σ → Outcome S.Keeper × σ
  /-- Function `authtypes.NewModuleAddress`. -/
  NewModuleAddress : String → S.AccAddress
  /-- Method `sdk.AccAddress.String`. -/
  AccAddressString : S.AccAddress → String
  /-- Method `keeper.Keeper.Hooks`. -/
  Hooks : S.Keeper → S.StakingHooks
  /-- Function `NewCommunityPoolSpendProposalHandler` of `handler.go`. -/
  NewCommunityPoolSpendProposalHandler : S.Keeper → S.GovHandler

/-- Interface `module.Configurator` (the methods `RegisterServices` calls). -/
structure Configurator (S : Sig) (σ : Type) where
  MsgServer : S.GrpcServer
  QueryServer : S.GrpcServer
  RegisterMigration : String → Nat → MigrationHandler S → σ → Option GoError × σ

/-! ## `module.go` -/

/-- ConsensusVersion defines the current x/distribution module consensus
version (a `uint64` constant). -/
def ConsensusVersion : Nat := 3

/-- AppModuleBasic defines the basic application module used by the
distribution module. -/
structure AppModuleBasic (S : Sig) where
  cdc : Option (JSONCodec S)

/-- AppModule implements an application module for the distribution module. -/
structure AppModule (S : Sig) where
  toAppModuleBasic : AppModuleBasic S
  keeper : S.Keeper
  accountKeeper : S.AccountKeeper
  bankKeeper : S.BankKeeper
  stakingKeeper : S.StakingKeeper
  legacySubspace : S.Subspace

/-- NewAppModule creates a new AppModule object. -/
def NewAppModule {S : Sig} (cdc : JSONCodec S) (keeper : S.Keeper)
    (accountKeeper : S.AccountKeeper) (bankKeeper : S.BankKeeper)
    (stakingKeeper : S.StakingKeeper) (ss : S.Subspace) : AppModule S :=
  { toAppModuleBasic := { cdc := some cdc }
    keeper := keeper
    accountKeeper := accountKeeper
    bankKeeper := bankKeeper
    stakingKeeper := stakingKeeper
    legacySubspace := ss }

/-- Name returns the distribution module's name. -/
def AppModule.Name {S : Sig} {σ : Type} (ext : Externals S σ) (_am : AppModule S) : String :=
  ext.ModuleName

/-- The error built by
`fmt.Errorf("failed to unmarshal %s genesis state: %w", types.ModuleName, err)`. -/
def unmarshalGenesisError (moduleName : String) (err : GoError) : GoError :=
  GoError.wrapError ("failed to unmarshal " ++ moduleName ++ " genesis state: " ++ err.Error) err

/-- ValidateGenesis performs genesis state validation for the distribution
module. -/
def AppModuleBasic.ValidateGenesis {S : Sig} {σ : Type} (ext : Externals S σ)
    (_b : AppModuleBasic S) (cdc : JSONCodec S) (_config : S.TxEncodingConfig)
    (bz : RawMessage) : Go S σ (Option GoError) := do
  let data : S.GenesisState := S.zeroGenesisState
  let r ← Go.callPure (Call.UnmarshalJSON bz) (Outcome.ret (cdc.UnmarshalJSON bz data))
  match r.1 with
  | some err => return some (unmarshalGenesisError ext.ModuleName err)
  | none => Go.callPure (Call.ValidateGenesis r.2) (Outcome.ret (ext.ValidateGenesis r.2))

/-- The string built by
`fmt.Sprintf("failed to migrate x/%s from version 1 to 2: %v", types.ModuleName, err)`
and its sibling for versions 2 to 3; `versions` is the text of the format
between the two verbs. -/
def migrateFailure (moduleName : String) (versions : String) (err : GoError) : String :=
  "failed to migrate x/" ++ moduleName ++ versions ++ err.Error

/-- RegisterServices registers module services. -/
def AppModule.RegisterServices {S : Sig} {σ : Type} (ext : Externals S σ)
    (am : AppModule S) (cfg : Configurator S σ) : Go S σ Unit := do
  Go.call (Call.RegisterMsgServer cfg.MsgServer (ext.NewMsgServerImpl am.keeper))
    (ext.RegisterMsgServer cfg.MsgServer (ext.NewMsgServerImpl am.keeper))
  Go.call (Call.RegisterQueryServer cfg.QueryServer (ext.NewQuerier am.keeper))
    (ext.RegisterQueryServer cfg.QueryServer (ext.NewQuerier am.keeper))
  let m := ext.NewMigrator am.keeper am.legacySubspace
  let err ← Go.call (Call.RegisterMigration ext.ModuleName 1 (MigrationHandler.Migrate1to2 m))
    (fun s => (Outcome.ret (cfg.RegisterMigration ext.ModuleName 1 (MigrationHandler.Migrate1to2 m) s).1,
      (cfg.RegisterMigration ext.ModuleName 1 (MigrationHandler.Migrate1to2 m) s).2))
  match err with
  | some err => goPanic (PanicValue.string (migrateFailure ext.ModuleName " from version 1 to 2: " err))
  | none =>
    let err ← Go.call (Call.RegisterMigration ext.ModuleName 2 (MigrationHandler.Migrate2to3 m))
      (fun s => (Outcome.ret (cfg.RegisterMigration ext.ModuleName 2 (MigrationHandler.Migrate2to3 m) s).1,
        (cfg.RegisterMigration ext.ModuleName 2 (MigrationHandler.Migrate2to3 m) s).2))
    match err with
    | some err => goPanic (PanicValue.string (migrateFailure ext.ModuleName " from version 2 to 3: " err))
    | none => return ()

/-- InitGenesis performs genesis initialization for the distribution module. It
returns no validator updates. -/
def AppModule.InitGenesis {S : Sig} {σ : Type} (ext : Externals S σ) (am : AppModule S)
    (ctx : S.Context) (cdc : JSONCodec S) (data : RawMessage) :
    Go S σ (Slice S.ValidatorUpdate) := do
  let genesisState : S.GenesisState := S.zeroGenesisState
  let genesisState ← Go.callPure (Call.MustUnmarshalJSON data)
    (Outcome.ofExcept (cdc.MustUnmarshalJSON data genesisState))
  Go.call (Call.keeperInitGenesis am.keeper ctx genesisState)
    (ext.keeperInitGenesis am.keeper ctx genesisState)
  return Slice.mk []

/-- ExportGenesis returns the exported genesis state as raw bytes for the
distribution module. -/
def AppModule.ExportGenesis {S : Sig} {σ : Type} (ext : Externals S σ) (am : AppModule S)
    (ctx : S.Context) (cdc : JSONCodec S) : Go S σ RawMessage := do
  let gs ← Go.call (Call.keeperExportGenesis am.keeper ctx) (ext.keeperExportGenesis am.keeper ctx)
  Go.callPure (Call.MustMarshalJSON gs) (Outcome.ofExcept (cdc.MustMarshalJSON gs))

/-- ConsensusVersion implements AppModule/ConsensusVersion; the result is a
`uint64`. -/
def AppModule.ConsensusVersion {S : Sig} (_am : AppModule S) : Nat :=
  Distribution.ConsensusVersion % 2 ^ 64

/-- BeginBlock returns the begin blocker for the distribution module. -/
def AppModule.BeginBlock {S : Sig} {σ : Type} (ext : Externals S σ) (am : AppModule S)
    (ctx : S.Context) (req : S.RequestBeginBlock) : Go S σ Unit :=
  Go.call (Call.BeginBlocker ctx req am.keeper) (ext.BeginBlocker ctx req am.keeper)

/-- Message `modulev1.Module`, the module's configuration. -/
structure ModuleConfig where
  FeeCollectorName : String
  deriving DecidableEq, Repr

/-- Type `depinject.OwnModuleKey`; its `Name()` is the module's name in the
application configuration. -/
structure OwnModuleKey where
  name : String
  deriving DecidableEq, Repr

/-- Method `depinject.ModuleKey.Name`. -/
def OwnModuleKey.Name (k : OwnModuleKey) : String := k.name

/-- The inputs of `provideModule`.  `Config` is a pointer (`none` is nil);
`Authority` is optional, so it may be the nil map. -/
structure distrInputs (S : Sig) where
  ModuleKey : OwnModuleKey
  Config : Option ModuleConfig
  Key : S.KVStoreKey
  Cdc : JSONCodec S
  Authority : GoMap S.AccAddress
  AccountKeeper : S.AccountKeeper
  BankKeeper : S.BankKeeper
  StakingKeeper : S.StakingKeeper
  LegacySubspace : S.Subspace

/-- The outputs of `provideModule`.  The wrappers `runtime.AppModuleWrapper`,
`staking.StakingHooksWrapper` and `govv1beta1.HandlerRoute` are structs around
the values kept here. -/
structure distrOutputs (S : Sig) where
  DistrKeeper : S.Keeper
  Module : AppModule S
  Hooks : S.StakingHooks
  GovHandler : S.GovHandler × String

/-- The panic of the Go runtime on a nil pointer dereference. -/
def nilDereference : PanicValue :=
  PanicValue.error (GoError.external "runtime error: invalid memory address or nil pointer dereference")

/-- Function `provideModule`: builds the keeper and the module from the injected inputs. -/
def provideModule {S : Sig} {σ : Type} (ext : Externals S σ) (inp : distrInputs S) :
    Go S σ (distrOutputs S) :=
  match inp.Config with
  | none => goPanic nilDereference
  | some config => do
    let feeCollectorName := config.FeeCollectorName
    let feeCollectorName :=
      if feeCollectorName == "" then ext.FeeCollectorName else feeCollectorName
    let authority :=
      match inp.Authority.index inp.ModuleKey.Name with
      | some authority => authority
      | none => ext.NewModuleAddress ext.govModuleName
    let args : NewKeeperArgs S :=
      { cdc := inp.Cdc
        key := inp.Key
        ak := inp.AccountKeeper
        bk := inp.BankKeeper
        sk := inp.StakingKeeper
        feeCollectorName := feeCollectorName
        authority := ext.AccAddressString authority }
    let k ← Go.call (Call.NewKeeper args) (ext.NewKeeper args)
    let m := NewAppModule inp.Cdc k inp.AccountKeeper inp.BankKeeper inp.StakingKeeper
      inp.LegacySubspace
    return { DistrKeeper := k
             Module := m
             Hooks := ext.Hooks k
             GovHandler := (ext.NewCommunityPoolSpendProposalHandler k, ext.RouterKey) }

/-! ## Reading traces -/

/-- The calls recorded between world `w` and a later world `w2`. -/
def callsSince {S : Sig} {σ : Type} (w w2 : World S σ) : List (Call S) :=
  w2.calls.drop w.calls.length

/-- Whether a call is a call of `BeginBlocker`. -/
def Call.isBeginBlocker {S : Sig} : Call S → Bool
  | Call.BeginBlocker _ _ _ => true
  | _ => false

/-- The genesis state handed to `keeper.InitGenesis`, nothing for other calls. -/
def Call.initGenesisState {S : Sig} : Call S → Option S.GenesisState
  | Call.keeperInitGenesis _ _ data => some data
  | _ => none

/-- The state handed to `types.ValidateGenesis`, nothing for other calls. -/
def Call.validatedState {S : Sig} : Call S → Option S.GenesisState
  | Call.ValidateGenesis data => some data
  | _ => none

/-- The module name, source version and handler of a `RegisterMigration` call,
nothing for other calls. -/
def Call.migration {S : Sig} : Call S → Option (String × Nat × MigrationHandler S)
  | Call.RegisterMigration name fromVersion handler => some (name, fromVersion, handler)
  | _ => none

/-- The registrations made from version `v` in a trace, for any module name. -/
def migrationsFrom {S : Sig} (v : Nat) (calls : List (Call S)) :
    List (String × Nat × MigrationHandler S) :=
  (calls.filterMap Call.migration).filter (fun r => decide (r.2.1 = v))

/-- The authority strings handed to `keeper.NewKeeper` in a trace. -/
def newKeeperAuthorities {S : Sig} (calls : List (Call S)) : List String :=
  calls.filterMap (fun c => match c with
    | Call.NewKeeper args => some args.authority
    | _ => none)

/-! ## A concrete instance

A small world on which every definition above evaluates: a genesis state is a
byte string, the codec writes it after the opening byte `123`, and the store
is the byte string the keeper holds. -/

/-- Every carried type is `Nat`, a genesis state is a list of bytes. -/
abbrev demoSig : Sig :=
  { Context := Nat
    RequestBeginBlock := Nat
    GenesisState := List (Fin 256)
    zeroGenesisState := []
    ValidatorUpdate := Nat
    TxEncodingConfig := Unit
    Keeper := Nat
    AccountKeeper := Nat
    BankKeeper := Nat
    StakingKeeper := Nat
    Subspace := Nat
    KVStoreKey := Nat
    AccAddress := List (Fin 256)
    GrpcServer := Nat
    MsgServer := Nat
    QueryServer := Nat
    Migrator := Nat
    StakingHooks := Nat
    GovHandler := Nat }

/-- Decoding of the demo codec: the payload after the opening byte `123`. -/
def demoDecode : RawMessage → Option (List (Fin 256))
  | 123 :: rest => some rest
  | _ => none

/-- A codec whose encoding is the opening byte `123` followed by the state. -/
def demoCodec : JSONCodec demoSig :=
  { MustMarshalJSON := fun gs => Except.ok ((123 : Fin 256) :: gs)
    UnmarshalJSON := fun bz old =>
      match demoDecode bz with
      | some gs => (none, gs)
      | none => (some (GoError.external "invalid character"), old)
    MustUnmarshalJSON := fun bz _ =>
      match demoDecode bz with
      | some gs => Except.ok gs
      | none => Except.error (PanicValue.error (GoError.external "invalid character")) }

/-- Collaborators of the demo world; the store is the list of genesis bytes held
by the keeper.  `NewKeeper` appends the characters of the authority string it
receives to the store, so the store shows what it was called with. -/
def demoExt : Externals demoSig (List (Fin 256)) :=
  { ModuleName := "distribution"
    RouterKey := "distribution"
    govModuleName := "gov"
    FeeCollectorName := "fee_collector"
    ValidateGenesis := fun gs =>
      if gs.length ≤ 4 then none else some (GoError.external "too many entries")
    keeperInitGenesis := fun _ _ gs _ => (Outcome.ret (), gs)
    keeperExportGenesis := fun _ _ s => (Outcome.ret s, s)
    BeginBlocker := fun _ req _ s => (Outcome.ret (), s ++ [Fin.ofNat req])
    RegisterMsgServer := fun _ _ s => (Outcome.ret (), s)
    RegisterQueryServer := fun _ _ s => (Outcome.ret (), s)
    NewMsgServerImpl := fun k => k
    NewQuerier := fun k => k
    NewMigrator := fun (k : Nat) (ss : Nat) => k + ss
    NewKeeper := fun args s =>
      (Outcome.ret args.authority.length,
        s ++ args.authority.toList.map (fun c => Fin.ofNat c.toNat))
    NewModuleAddress := fun name => name.toList.map (fun c => Fin.ofNat c.toNat)
    AccAddressString := fun a => String.mk (a.map (fun b => Char.ofNat b.val))
    Hooks := fun k => k
    NewCommunityPoolSpendProposalHandler := fun k => k }

/-- A configurator whose table of registered source versions is the store: it
refuses version 0 and a version already in the table, and otherwise adds the
version to the table. -/
def demoCfg : Configurator demoSig (List (Fin 256)) :=
  { MsgServer := (1 : Nat)
    QueryServer := (2 : Nat)
    RegisterMigration := fun _ v _ s =>
      if v = 0 then (some (GoError.external "module migration versions should start at 1"), s)
      else if (Fin.ofNat v : Fin 256) ∈ s then
        (some (GoError.external "another migration is already registered"), s)
      else (none, s ++ [Fin.ofNat v]) }

/-- A world with an empty store in which nothing was called yet. -/
def demoEmptyWorld : World demoSig (List (Fin 256)) :=
  { store := [], calls := [] }

/-- The demo module, built by `NewAppModule` around keeper `7`. -/
def demoModule : AppModule demoSig :=
  NewAppModule demoCodec (7 : Nat) (0 : Nat) (0 : Nat) (0 : Nat) (5 : Nat)

/-- A world in which the keeper holds three bytes and nothing was called yet. -/
def demoWorld : World demoSig (List (Fin 256)) :=
  { store := [1, 2, 3], calls := [] }

/-- Inputs for the demo world: the module is named `distribution`, the fee
collector name is left empty, and the authority map is the argument. -/
def demoInputs (authority : GoMap (List (Fin 256))) : distrInputs demoSig :=
  { ModuleKey := { name := "distribution" }
    Config := some { FeeCollectorName := "" }
    Key := (0 : Nat)
    Cdc := demoCodec
    Authority := authority
    AccountKeeper := (0 : Nat)
    BankKeeper := (0 : Nat)
    StakingKeeper := (0 : Nat)
    LegacySubspace := (5 : Nat) }

/-! ## Laws of the monad -/

theorem Go.bind_apply {S : Sig} {σ α β : Type} (x : Go S σ α) (f : α → Go S σ β)
    (w : World S σ) :
    (x >>= f) w =
      match x w with
      | (Outcome.ret a, w1) => f a w1
      | (Outcome.panicked v, w1) => (Outcome.panicked v, w1) := rfl

theorem Go.pure_apply {S : Sig} {σ α : Type} (a : α) (w : World S σ) :
    (Pure.pure a : Go S σ α) w = (Outcome.ret a, w) := rfl

theorem Go.call_apply {S : Sig} {σ α : Type} (ev : Call S) (f : σ → Outcome α × σ)
    (w : World S σ) :
    Go.call ev f w = ((f w.store).1, { store := (f w.store).2, calls := w.calls ++ [ev] }) := rfl

theorem callsSince_append {S : Sig} {σ : Type} (w : World S σ) (s : σ) (cs : List (Call S)) :
    callsSince w { store := s, calls := w.calls ++ cs } = cs := by
  simp [callsSince]

/-! ## Genesis -/

/-- What `AppModule.InitGenesis` does once the data has decoded to `gs`: one
call of the codec, one call of `keeper.InitGenesis` on `gs`, and the keeper's
outcome with the empty update list in place of its unit result. -/
theorem InitGenesis_of_decoded {S : Sig} {σ : Type} (ext : Externals S σ) (am : AppModule S)
    (ctx : S.Context) (cdc : JSONCodec S) (data : RawMessage) (w : World S σ)
    (gs : S.GenesisState)
    (hdec : cdc.MustUnmarshalJSON data S.zeroGenesisState = Except.ok gs) :
    am.InitGenesis ext ctx cdc data w =
      ((match (ext.keeperInitGenesis am.keeper ctx gs w.store).1 with
        | Outcome.ret _ => Outcome.ret (Slice.mk [])
        | Outcome.panicked v => Outcome.panicked v),
       { store := (ext.keeperInitGenesis am.keeper ctx gs w.store).2
         calls := w.calls ++
           [Call.MustUnmarshalJSON data, Call.keeperInitGenesis am.keeper ctx gs] }) := by
  simp only [AppModule.InitGenesis, Go.bind_apply, Go.callPure, Go.call_apply, hdec,
    Outcome.ofExcept, Go.pure_apply]
  cases h : (ext.keeperInitGenesis am.keeper ctx gs w.store).1 <;> simp [h]

/-- What `AppModule.InitGenesis` does when the codec panics with `v`: the panic
goes through and the keeper is not called. -/
theorem InitGenesis_of_undecodable {S : Sig} {σ : Type} (ext : Externals S σ)
    (am : AppModule S) (ctx : S.Context) (cdc : JSONCodec S) (data : RawMessage)
    (w : World S σ) (v : PanicValue)
    (hdec : cdc.MustUnmarshalJSON data S.zeroGenesisState = Except.error v) :
    am.InitGenesis ext ctx cdc data w =
      (Outcome.panicked v, { store := w.store, calls := w.calls ++ [Call.MustUnmarshalJSON data] }) := by
  simp only [AppModule.InitGenesis, Go.bind_apply, Go.callPure, Go.call_apply, hdec,
    Outcome.ofExcept]

/-- What `AppModule.ExportGenesis` returns, read off its definition: it returns
`bz` exactly when the keeper returned some state and the codec marshalled that
state to `bz`. -/
theorem ExportGenesis_ret {S : Sig} {σ : Type} (ext : Externals S σ) (am : AppModule S)
    (ctx : S.Context) (cdc : JSONCodec S) (w : World S σ) (bz : RawMessage)
    (h : (am.ExportGenesis ext ctx cdc w).1 = Outcome.ret bz) :
    ∃ gs, (ext.keeperExportGenesis am.keeper ctx w.store).1 = Outcome.ret gs ∧
      cdc.MustMarshalJSON gs = Except.ok bz := by
  simp only [AppModule.ExportGenesis, Go.bind_apply, Go.callPure, Go.call_apply] at h
  cases hk : (ext.keeperExportGenesis am.keeper ctx w.store).1 with
  | ret gs =>
    refine ⟨gs, rfl, ?_⟩
    simp only [hk] at h
    cases hm : cdc.MustMarshalJSON gs with
    | ok b =>
      simp only [hm, Outcome.ofExcept] at h
      cases h
      rfl
    | error v => simp [hm, Outcome.ofExcept] at h
  | panicked v => simp [hk] at h

/-- C1 (genesis round trip at the module boundary).  Let `bz` be what
`AppModule.ExportGenesis` returned in some world, `gs` the state
`keeper.ExportGenesis` returned there, and let the codec's `MustUnmarshalJSON`
(into a zero value) invert its `MustMarshalJSON`.  Then `AppModule.InitGenesis`
on `bz`, in any world and context, makes exactly two calls: it decodes `bz` and
it calls `keeper.InitGenesis` once, with the module's keeper, the given context
and exactly `gs`; the store it leaves is the one `keeper.InitGenesis` left, and
it returns the empty update list exactly when `keeper.InitGenesis` returns. -/
theorem genesis_round_trip {S : Sig} {σ : Type} (ext : Externals S σ) (am : AppModule S)
    (cdc : JSONCodec S) (ctx ctx2 : S.Context) (w w2 : World S σ) (gs : S.GenesisState)
    (bz : RawMessage)
    (hinv : ∀ g b, cdc.MustMarshalJSON g = Except.ok b →
      cdc.MustUnmarshalJSON b S.zeroGenesisState = Except.ok g)
    (hkeeper : (ext.keeperExportGenesis am.keeper ctx w.store).1 = Outcome.ret gs)
    (hexport : (am.ExportGenesis ext ctx cdc w).1 = Outcome.ret bz) :
    callsSince w2 (am.InitGenesis ext ctx2 cdc bz w2).2 =
        [Call.MustUnmarshalJSON bz, Call.keeperInitGenesis am.keeper ctx2 gs]
      ∧ (callsSince w2 (am.InitGenesis ext ctx2 cdc bz w2).2).filterMap Call.initGenesisState
          = [gs]
      ∧ (am.InitGenesis ext ctx2 cdc bz w2).2.store
          = (ext.keeperInitGenesis am.keeper ctx2 gs w2.store).2
      ∧ ((am.InitGenesis ext ctx2 cdc bz w2).1 = Outcome.ret (Slice.mk []) ↔
          (ext.keeperInitGenesis am.keeper ctx2 gs w2.store).1 = Outcome.ret ()) := by
  obtain ⟨gs1, hk1, hm⟩ := ExportGenesis_ret ext am ctx cdc w bz hexport
  have hgs : gs1 = gs := by
    rw [hkeeper] at hk1
    cases hk1
    rfl
  subst hgs
  rw [InitGenesis_of_decoded ext am ctx2 cdc bz w2 gs1 (hinv gs1 bz hm)]
  refine ⟨callsSince_append w2 _ _, ?_, rfl, ?_⟩
  · rw [callsSince_append]
    rfl
  · cases h : (ext.keeperInitGenesis am.keeper ctx2 gs1 w2.store).1 <;> simp

/-- C1 at a concrete input: the demo module exports `[1, 2, 3]` as
`[123, 1, 2, 3]`; importing that into an empty store calls `keeper.InitGenesis`
on `[1, 2, 3]`. -/
theorem genesis_round_trip_witness :
    (∀ g b, demoCodec.MustMarshalJSON g = Except.ok b →
        demoCodec.MustUnmarshalJSON b demoSig.zeroGenesisState = Except.ok g)
      ∧ (demoExt.keeperExportGenesis demoModule.keeper (0 : Nat) demoWorld.store).1
          = Outcome.ret [1, 2, 3]
      ∧ (demoModule.ExportGenesis demoExt (0 : Nat) demoCodec demoWorld).1
          = Outcome.ret [123, 1, 2, 3]
      ∧ (callsSince { store := [], calls := [] }
            (demoModule.InitGenesis demoExt (9 : Nat) demoCodec [123, 1, 2, 3]
              { store := [], calls := [] }).2).filterMap Call.initGenesisState
          = [[1, 2, 3]] :=
  have hinv : ∀ g b, demoCodec.MustMarshalJSON g = Except.ok b →
      demoCodec.MustUnmarshalJSON b demoSig.zeroGenesisState = Except.ok g := by
    intro g b h
    simp only [demoCodec, Except.ok.injEq] at h
    subst h
    rfl
  ⟨hinv, rfl, rfl,
    (genesis_round_trip demoExt demoModule demoCodec (0 : Nat) (9 : Nat) demoWorld
      { store := [], calls := [] } [1, 2, 3] [123, 1, 2, 3] hinv rfl rfl).2.1⟩

/-- C6 (`AppModule.InitGenesis` returns no validator updates).  In every world,
for every context and every data: whenever the function returns, the list it
returns is the allocated empty slice (length 0, not nil), whatever the genesis
state holds; and it does return whenever the data decodes and
`keeper.InitGenesis` returns on the decoded state. -/
theorem InitGenesis_no_validator_updates {S : Sig} {σ : Type} (ext : Externals S σ)
    (am : AppModule S) (ctx : S.Context) (cdc : JSONCodec S) (data : RawMessage)
    (w : World S σ) :
    (∀ updates, (am.InitGenesis ext ctx cdc data w).1 = Outcome.ret updates →
        updates = Slice.mk [] ∧ updates.len = 0 ∧ updates.isNonNil = true)
      ∧ (∀ gs, cdc.MustUnmarshalJSON data S.zeroGenesisState = Except.ok gs →
          (ext.keeperInitGenesis am.keeper ctx gs w.store).1 = Outcome.ret () →
          (am.InitGenesis ext ctx cdc data w).1 = Outcome.ret (Slice.mk [])) := by
  constructor
  · intro updates h
    cases hdec : cdc.MustUnmarshalJSON data S.zeroGenesisState with
    | ok gs =>
      rw [InitGenesis_of_decoded ext am ctx cdc data w gs hdec] at h
      cases hk : (ext.keeperInitGenesis am.keeper ctx gs w.store).1 with
      | ret u =>
        simp only [hk, Outcome.ret.injEq] at h
        subst h
        exact ⟨rfl, rfl, rfl⟩
      | panicked v => simp [hk] at h
    | error v =>
      rw [InitGenesis_of_undecodable ext am ctx cdc data w v hdec] at h
      simp at h
  · intro gs hdec hk
    rw [InitGenesis_of_decoded ext am ctx cdc data w gs hdec, hk]

/-- C6 at a concrete input: importing `[123, 1, 2, 3]` in the demo world returns
the allocated empty slice. -/
theorem InitGenesis_no_validator_updates_witness :
    (demoModule.InitGenesis demoExt (9 : Nat) demoCodec [123, 1, 2, 3] demoWorld).1
        = Outcome.ret (Slice.mk [])
      ∧ (Slice.mk [] : Slice demoSig.ValidatorUpdate).len = 0
      ∧ (Slice.mk [] : Slice demoSig.ValidatorUpdate).isNonNil = true :=
  have h := (InitGenesis_no_validator_updates demoExt demoModule (9 : Nat) demoCodec
    [123, 1, 2, 3] demoWorld).2 [1, 2, 3] rfl rfl
  ⟨h, ((InitGenesis_no_validator_updates demoExt demoModule (9 : Nat) demoCodec
    [123, 1, 2, 3] demoWorld).1 _ h).2⟩

/-! ## Begin block -/

/-- C2 (`AppModule.BeginBlock` invokes the allocation step exactly once).  For
every world, context and request, `BeginBlock` is the single call
`BeginBlocker(ctx, req, am.keeper)`: the outcome and the store are those of
that call on the store as it was, and the only call recorded is that one, with
the context and request it was given and the module's own keeper. -/
theorem BeginBlock_calls_BeginBlocker_once {S : Sig} {σ : Type} (ext : Externals S σ)
    (am : AppModule S) (ctx : S.Context) (req : S.RequestBeginBlock) (w : World S σ) :
    (am.BeginBlock ext ctx req w).1 = (ext.BeginBlocker ctx req am.keeper w.store).1
      ∧ (am.BeginBlock ext ctx req w).2.store = (ext.BeginBlocker ctx req am.keeper w.store).2
      ∧ callsSince w (am.BeginBlock ext ctx req w).2 = [Call.BeginBlocker ctx req am.keeper]
      ∧ ((callsSince w (am.BeginBlock ext ctx req w).2).filter Call.isBeginBlocker).length = 1 := by
  have hc : callsSince w (am.BeginBlock ext ctx req w).2 = [Call.BeginBlocker ctx req am.keeper] := by
    simp only [AppModule.BeginBlock, Go.call_apply]
    exact callsSince_append w _ _
  refine ⟨rfl, rfl, hc, ?_⟩
  rw [hc]
  rfl

/-- C2 at a concrete input: on request `4` the demo module makes the one call
`BeginBlocker(3, 4, 7)` and leaves the store that call left. -/
theorem BeginBlock_calls_BeginBlocker_once_witness :
    (demoModule.BeginBlock demoExt (3 : Nat) (4 : Nat) demoWorld).2.store = [1, 2, 3, 4]
      ∧ ((callsSince demoWorld
          (demoModule.BeginBlock demoExt (3 : Nat) (4 : Nat) demoWorld).2).filter
            Call.isBeginBlocker).length = 1 :=
  ⟨rfl, (BeginBlock_calls_BeginBlocker_once demoExt demoModule (3 : Nat) (4 : Nat)
    demoWorld).2.2.2⟩

/-! ## Services and migrations -/

/-- The calls of a run of `AppModule.RegisterServices` that returns: the two
service registrations, then the two migration registrations, in this order. -/
theorem RegisterServices_calls {S : Sig} {σ : Type} (ext : Externals S σ) (am : AppModule S)
    (cfg : Configurator S σ) (w : World S σ)
    (h : (am.RegisterServices ext cfg w).1 = Outcome.ret ()) :
    callsSince w (am.RegisterServices ext cfg w).2 =
      [Call.RegisterMsgServer cfg.MsgServer (ext.NewMsgServerImpl am.keeper),
       Call.RegisterQueryServer cfg.QueryServer (ext.NewQuerier am.keeper),
       Call.RegisterMigration ext.ModuleName 1
         (MigrationHandler.Migrate1to2 (ext.NewMigrator am.keeper am.legacySubspace)),
       Call.RegisterMigration ext.ModuleName 2
         (MigrationHandler.Migrate2to3 (ext.NewMigrator am.keeper am.legacySubspace))] := by
  simp only [AppModule.RegisterServices, Go.bind_apply, Go.call_apply] at h ⊢
  cases h1 : (ext.RegisterMsgServer cfg.MsgServer (ext.NewMsgServerImpl am.keeper) w.store).1 with
  | panicked v => simp [h1] at h
  | ret u1 =>
    simp only [h1] at h ⊢
    cases h2 : (ext.RegisterQueryServer cfg.QueryServer (ext.NewQuerier am.keeper)
        (ext.RegisterMsgServer cfg.MsgServer (ext.NewMsgServerImpl am.keeper) w.store).2).1 with
    | panicked v => simp [h2] at h
    | ret u2 =>
      simp only [h2] at h ⊢
      generalize (ext.RegisterQueryServer cfg.QueryServer (ext.NewQuerier am.keeper)
        (ext.RegisterMsgServer cfg.MsgServer (ext.NewMsgServerImpl am.keeper) w.store).2).2 = s2
        at h ⊢
      cases h3 : (cfg.RegisterMigration ext.ModuleName 1
          (MigrationHandler.Migrate1to2 (ext.NewMigrator am.keeper am.legacySubspace)) s2).1 with
      | some e => simp [h3, goPanic] at h
      | none =>
        simp only [h3, Go.bind_apply, Go.call_apply] at h ⊢
        generalize (cfg.RegisterMigration ext.ModuleName 1
          (MigrationHandler.Migrate1to2 (ext.NewMigrator am.keeper am.legacySubspace)) s2).2 = s3
          at h ⊢
        cases h4 : (cfg.RegisterMigration ext.ModuleName 2
            (MigrationHandler.Migrate2to3 (ext.NewMigrator am.keeper am.legacySubspace)) s3).1 with
        | some e => simp [h4, goPanic] at h
        | none =>
          simp only [h4, Go.pure_apply, callsSince, List.append_assoc, List.drop_left]
          rfl

/-- The effect of a run of `AppModule.RegisterServices` that returns: each of
the four collaborators was applied to the store its predecessor left, the two
service registrations returned, the configurator answered nil to both
migration registrations, and the store left is the one the second migration
registration left. -/
theorem RegisterServices_effect {S : Sig} {σ : Type} (ext : Externals S σ) (am : AppModule S)
    (cfg : Configurator S σ) (w : World S σ)
    (h : (am.RegisterServices ext cfg w).1 = Outcome.ret ())
    (s1 s2 s3 s4 : σ)
    (e1 : s1 = (ext.RegisterMsgServer cfg.MsgServer (ext.NewMsgServerImpl am.keeper) w.store).2)
    (e2 : s2 = (ext.RegisterQueryServer cfg.QueryServer (ext.NewQuerier am.keeper) s1).2)
    (e3 : s3 = (cfg.RegisterMigration ext.ModuleName 1
      (MigrationHandler.Migrate1to2 (ext.NewMigrator am.keeper am.legacySubspace)) s2).2)
    (e4 : s4 = (cfg.RegisterMigration ext.ModuleName 2
      (MigrationHandler.Migrate2to3 (ext.NewMigrator am.keeper am.legacySubspace)) s3).2) :
    (ext.RegisterMsgServer cfg.MsgServer (ext.NewMsgServerImpl am.keeper) w.store).1
        = Outcome.ret ()
      ∧ (ext.RegisterQueryServer cfg.QueryServer (ext.NewQuerier am.keeper) s1).1
        = Outcome.ret ()
      ∧ (cfg.RegisterMigration ext.ModuleName 1
          (MigrationHandler.Migrate1to2 (ext.NewMigrator am.keeper am.legacySubspace)) s2).1
        = none
      ∧ (cfg.RegisterMigration ext.ModuleName 2
          (MigrationHandler.Migrate2to3 (ext.NewMigrator am.keeper am.legacySubspace)) s3).1
        = none
      ∧ (am.RegisterServices ext cfg w).2.store = s4 := by
  simp only [AppModule.RegisterServices, Go.bind_apply, Go.call_apply] at h ⊢
  cases h1 : (ext.RegisterMsgServer cfg.MsgServer (ext.NewMsgServerImpl am.keeper) w.store).1 with
  | panicked v => simp [h1] at h
  | ret u1 =>
    simp only [h1, ← e1] at h ⊢
    cases h2 : (ext.RegisterQueryServer cfg.QueryServer (ext.NewQuerier am.keeper) s1).1 with
    | panicked v => simp [h2] at h
    | ret u2 =>
      simp only [h2, ← e2] at h ⊢
      cases h3 : (cfg.RegisterMigration ext.ModuleName 1
          (MigrationHandler.Migrate1to2 (ext.NewMigrator am.keeper am.legacySubspace)) s2).1 with
      | some e => simp [h3, goPanic] at h
      | none =>
        simp only [h3, ← e3, Go.bind_apply, Go.call_apply] at h ⊢
        cases h4 : (cfg.RegisterMigration ext.ModuleName 2
            (MigrationHandler.Migrate2to3 (ext.NewMigrator am.keeper am.legacySubspace)) s3).1 with
        | some e => simp [h4, goPanic] at h
        | none =>
          simp only [h4, ← e4, Go.pure_apply, and_self]

/-- `AppModule.RegisterServices` returns when the two service registrations
return and the configurator accepts both migration registrations. -/
theorem RegisterServices_returns {S : Sig} {σ : Type} (ext : Externals S σ) (am : AppModule S)
    (cfg : Configurator S σ) (w : World S σ)
    (hmsg : ∀ s, (ext.RegisterMsgServer cfg.MsgServer (ext.NewMsgServerImpl am.keeper) s).1
      = Outcome.ret ())
    (hquery : ∀ s, (ext.RegisterQueryServer cfg.QueryServer (ext.NewQuerier am.keeper) s).1
      = Outcome.ret ())
    (h1 : ∀ s, (cfg.RegisterMigration ext.ModuleName 1
      (MigrationHandler.Migrate1to2 (ext.NewMigrator am.keeper am.legacySubspace)) s).1 = none)
    (h2 : ∀ s, (cfg.RegisterMigration ext.ModuleName 2
      (MigrationHandler.Migrate2to3 (ext.NewMigrator am.keeper am.legacySubspace)) s).1 = none) :
    (am.RegisterServices ext cfg w).1 = Outcome.ret () := by
  simp only [AppModule.RegisterServices, Go.bind_apply, Go.call_apply, hmsg, hquery, h1, h2,
    Go.pure_apply]

/-- `AppModule.RegisterServices` panics, with the message of the source, when
the services register and the configurator refuses the first migration; the
second migration is then not registered. -/
theorem RegisterServices_panics_of_first_refused {S : Sig} {σ : Type} (ext : Externals S σ)
    (am : AppModule S) (cfg : Configurator S σ) (w : World S σ) (err : GoError)
    (hmsg : ∀ s, (ext.RegisterMsgServer cfg.MsgServer (ext.NewMsgServerImpl am.keeper) s).1
      = Outcome.ret ())
    (hquery : ∀ s, (ext.RegisterQueryServer cfg.QueryServer (ext.NewQuerier am.keeper) s).1
      = Outcome.ret ())
    (h1 : ∀ s, (cfg.RegisterMigration ext.ModuleName 1
      (MigrationHandler.Migrate1to2 (ext.NewMigrator am.keeper am.legacySubspace)) s).1
        = some err) :
    (am.RegisterServices ext cfg w).1 = Outcome.panicked (PanicValue.string
        ("failed to migrate x/" ++ ext.ModuleName ++ " from version 1 to 2: " ++ err.Error))
      ∧ (migrationsFrom 2 (callsSince w (am.RegisterServices ext cfg w).2)).length = 0 := by
  simp only [AppModule.RegisterServices, Go.bind_apply, Go.call_apply, hmsg, hquery, h1,
    goPanic, migrateFailure, callsSince, List.append_assoc, List.drop_left, true_and]
  rfl

/-- C3 (migration coverage).  When `AppModule.RegisterServices` returns, that is
when both migration registrations succeeded, the migration registrations it
made are exactly two, both under the module's name: from version 1 the handler
`Migrate1to2` and from version 2 the handler `Migrate2to3` of the migrator
built on the module's keeper and legacy subspace.  So for every version `v`
the number of registrations from `v` is one when `1 ≤ v < ConsensusVersion`
and zero otherwise, and `AppModule.ConsensusVersion()` is the constant
`ConsensusVersion = 3`.  The registrations are made, not only recorded: the
configurator's `RegisterMigration` was applied for version 1 to the store the
service registrations left and for version 2 to the store the first
registration left, both answered nil, and the store `RegisterServices` leaves
is the one the second registration left. -/
theorem RegisterServices_migration_coverage {S : Sig} {σ : Type} (ext : Externals S σ)
    (am : AppModule S) (cfg : Configurator S σ) (w : World S σ)
    (h : (am.RegisterServices ext cfg w).1 = Outcome.ret ()) :
    (callsSince w (am.RegisterServices ext cfg w).2).filterMap Call.migration =
        [(ext.ModuleName, 1,
            MigrationHandler.Migrate1to2 (ext.NewMigrator am.keeper am.legacySubspace)),
         (ext.ModuleName, 2,
            MigrationHandler.Migrate2to3 (ext.NewMigrator am.keeper am.legacySubspace))]
      ∧ (∀ v : Nat, (migrationsFrom v (callsSince w (am.RegisterServices ext cfg w).2)).length =
          if 1 ≤ v ∧ v < ConsensusVersion then 1 else 0)
      ∧ migrationsFrom 1 (callsSince w (am.RegisterServices ext cfg w).2) =
          [(ext.ModuleName, 1,
            MigrationHandler.Migrate1to2 (ext.NewMigrator am.keeper am.legacySubspace))]
      ∧ migrationsFrom 2 (callsSince w (am.RegisterServices ext cfg w).2) =
          [(ext.ModuleName, 2,
            MigrationHandler.Migrate2to3 (ext.NewMigrator am.keeper am.legacySubspace))]
      ∧ am.ConsensusVersion = ConsensusVersion
      ∧ ConsensusVersion = 3
      ∧ (∀ s1 s2 s3 s4 : σ,
          s1 = (ext.RegisterMsgServer cfg.MsgServer (ext.NewMsgServerImpl am.keeper)
            w.store).2 →
          s2 = (ext.RegisterQueryServer cfg.QueryServer (ext.NewQuerier am.keeper) s1).2 →
          s3 = (cfg.RegisterMigration ext.ModuleName 1
            (MigrationHandler.Migrate1to2 (ext.NewMigrator am.keeper am.legacySubspace))
            s2).2 →
          s4 = (cfg.RegisterMigration ext.ModuleName 2
            (MigrationHandler.Migrate2to3 (ext.NewMigrator am.keeper am.legacySubspace))
            s3).2 →
          (ext.RegisterMsgServer cfg.MsgServer (ext.NewMsgServerImpl am.keeper) w.store).1
              = Outcome.ret ()
            ∧ (ext.RegisterQueryServer cfg.QueryServer (ext.NewQuerier am.keeper) s1).1
              = Outcome.ret ()
            ∧ (cfg.RegisterMigration ext.ModuleName 1
                (MigrationHandler.Migrate1to2 (ext.NewMigrator am.keeper am.legacySubspace))
                s2).1 = none
            ∧ (cfg.RegisterMigration ext.ModuleName 2
                (MigrationHandler.Migrate2to3 (ext.NewMigrator am.keeper am.legacySubspace))
                s3).1 = none
            ∧ (am.RegisterServices ext cfg w).2.store = s4) := by
  refine ⟨?_, ?_, ?_, ?_, rfl, rfl, ?_⟩
  · rw [RegisterServices_calls ext am cfg w h]
    rfl
  · rw [RegisterServices_calls ext am cfg w h]
    intro v
    simp only [migrationsFrom, List.filterMap_cons, List.filterMap_nil, Call.migration,
      ConsensusVersion]
    by_cases h1 : v = 1
    · subst h1
      simp [List.filter_cons]
    · by_cases h2 : v = 2
      · subst h2
        simp [List.filter_cons]
      · have h1n : ¬ (1 = v) := fun e => h1 e.symm
        have h2n : ¬ (2 = v) := fun e => h2 e.symm
        have hr : ¬ (1 ≤ v ∧ v < 3) := by omega
        simp [List.filter_cons, h1n, h2n, hr]
  · rw [RegisterServices_calls ext am cfg w h]
    rfl
  · rw [RegisterServices_calls ext am cfg w h]
    rfl
  · intro s1 s2 s3 s4 e1 e2 e3 e4
    exact RegisterServices_effect ext am cfg w h s1 s2 s3 s4 e1 e2 e3 e4

/-- C3 at a concrete input: on an empty table the demo configurator accepts
both registrations, the demo module returns, its registrations from versions
0, 1, 2 and 3 number 0, 1, 1 and 0, and the table it leaves holds the versions
1 and 2. -/
theorem RegisterServices_migration_coverage_witness :
    (demoModule.RegisterServices demoExt demoCfg demoEmptyWorld).1 = Outcome.ret ()
      ∧ ((migrationsFrom 0 (callsSince demoEmptyWorld
            (demoModule.RegisterServices demoExt demoCfg demoEmptyWorld).2)).length = 0
        ∧ (migrationsFrom 1 (callsSince demoEmptyWorld
            (demoModule.RegisterServices demoExt demoCfg demoEmptyWorld).2)).length = 1
        ∧ (migrationsFrom 2 (callsSince demoEmptyWorld
            (demoModule.RegisterServices demoExt demoCfg demoEmptyWorld).2)).length = 1
        ∧ (migrationsFrom 3 (callsSince demoEmptyWorld
            (demoModule.RegisterServices demoExt demoCfg demoEmptyWorld).2)).length = 0)
      ∧ (demoModule.RegisterServices demoExt demoCfg demoEmptyWorld).2.store = [1, 2] :=
  have hret : (demoModule.RegisterServices demoExt demoCfg demoEmptyWorld).1 = Outcome.ret () :=
    by decide
  have h := (RegisterServices_migration_coverage demoExt demoModule demoCfg demoEmptyWorld
    hret).2.1
  ⟨hret, ⟨h 0, h 1, h 2, h 3⟩,
    ((RegisterServices_migration_coverage demoExt demoModule demoCfg demoEmptyWorld
      hret).2.2.2.2.2.2 [] [] [1] [1, 2] rfl rfl rfl rfl).2.2.2.2⟩

/-! ## Genesis validation -/

/-- The run of `AppModuleBasic.ValidateGenesis` when unmarshalling fails with
`err`: one codec call, the wrapped error, nothing else. -/
theorem ValidateGenesis_of_unmarshal_error {S : Sig} {σ : Type} (ext : Externals S σ)
    (b : AppModuleBasic S) (cdc : JSONCodec S) (config : S.TxEncodingConfig) (bz : RawMessage)
    (w : World S σ) (err : GoError)
    (h : (cdc.UnmarshalJSON bz S.zeroGenesisState).1 = some err) :
    b.ValidateGenesis ext cdc config bz w =
      (Outcome.ret (some (unmarshalGenesisError ext.ModuleName err)),
       { store := w.store, calls := w.calls ++ [Call.UnmarshalJSON bz] }) := by
  simp only [AppModuleBasic.ValidateGenesis, Go.bind_apply, Go.callPure, Go.call_apply, h,
    Go.pure_apply]

/-- The run of `AppModuleBasic.ValidateGenesis` when unmarshalling succeeds: the
codec call, then `types.ValidateGenesis` on the decoded state, whose result is
returned. -/
theorem ValidateGenesis_of_unmarshal_ok {S : Sig} {σ : Type} (ext : Externals S σ)
    (b : AppModuleBasic S) (cdc : JSONCodec S) (config : S.TxEncodingConfig) (bz : RawMessage)
    (w : World S σ) (h : (cdc.UnmarshalJSON bz S.zeroGenesisState).1 = none) :
    b.ValidateGenesis ext cdc config bz w =
      (Outcome.ret (ext.ValidateGenesis (cdc.UnmarshalJSON bz S.zeroGenesisState).2),
       { store := w.store
         calls := w.calls ++ [Call.UnmarshalJSON bz,
           Call.ValidateGenesis (cdc.UnmarshalJSON bz S.zeroGenesisState).2] }) := by
  simp only [AppModuleBasic.ValidateGenesis, Go.bind_apply, Go.callPure, Go.call_apply, h,
    List.append_assoc, List.singleton_append]

/-- C5 (`AppModuleBasic.ValidateGenesis` performs genesis state validation).
For every raw message `bz`, with `d = cdc.UnmarshalJSON(bz)` into a zero state:
the function returns, and what it returns is an error if and only if `d`
failed or `types.ValidateGenesis` fails on the decoded state; when `d` failed
with `err` the result is the error that unwraps to `err` and whose message is
"failed to unmarshal <module name> genesis state: " followed by the message of
`err`, and `types.ValidateGenesis` is not called; when `d` succeeded the result
is exactly that of `types.ValidateGenesis` on the decoded state, called once.
The store is left as it was. -/
theorem ValidateGenesis_performs_validation {S : Sig} {σ : Type} (ext : Externals S σ)
    (b : AppModuleBasic S) (cdc : JSONCodec S) (config : S.TxEncodingConfig) (bz : RawMessage)
    (w : World S σ) :
    (∃ res, (b.ValidateGenesis ext cdc config bz w).1 = Outcome.ret res ∧
        (res ≠ none ↔
          ((cdc.UnmarshalJSON bz S.zeroGenesisState).1 ≠ none ∨
            ext.ValidateGenesis (cdc.UnmarshalJSON bz S.zeroGenesisState).2 ≠ none)))
      ∧ (∀ err, (cdc.UnmarshalJSON bz S.zeroGenesisState).1 = some err →
          ∃ e, (b.ValidateGenesis ext cdc config bz w).1 = Outcome.ret (some e)
            ∧ e.Unwrap = some err
            ∧ e.Error = "failed to unmarshal " ++ ext.ModuleName ++ " genesis state: "
                ++ err.Error
            ∧ (callsSince w (b.ValidateGenesis ext cdc config bz w).2).filterMap
                Call.validatedState = [])
      ∧ ((cdc.UnmarshalJSON bz S.zeroGenesisState).1 = none →
          (b.ValidateGenesis ext cdc config bz w).1 =
              Outcome.ret (ext.ValidateGenesis (cdc.UnmarshalJSON bz S.zeroGenesisState).2)
            ∧ (callsSince w (b.ValidateGenesis ext cdc config bz w).2).filterMap
                Call.validatedState = [(cdc.UnmarshalJSON bz S.zeroGenesisState).2])
      ∧ (b.ValidateGenesis ext cdc config bz w).2.store = w.store := by
  cases h : (cdc.UnmarshalJSON bz S.zeroGenesisState).1 with
  | some err =>
    rw [ValidateGenesis_of_unmarshal_error ext b cdc config bz w err h]
    refine ⟨⟨_, rfl, by simp⟩, ?_, by simp, rfl⟩
    intro err2 he
    cases he
    refine ⟨_, rfl, rfl, rfl, ?_⟩
    rw [callsSince_append]
    rfl
  | none =>
    rw [ValidateGenesis_of_unmarshal_ok ext b cdc config bz w h]
    refine ⟨⟨_, rfl, by simp⟩, by simp, ?_, rfl⟩
    intro _
    refine ⟨rfl, ?_⟩
    rw [callsSince_append]
    rfl

/-- C5 at concrete inputs of the demo codec: `[7]` does not decode and gives the
wrapped error without a validation call; `[123, 1, 2]` decodes to a valid
state; `[123, 1, 2, 3, 4, 5]` decodes to a state that validation rejects. -/
theorem ValidateGenesis_performs_validation_witness :
    (demoModule.toAppModuleBasic.ValidateGenesis demoExt demoCodec () [7] demoWorld).1 =
        Outcome.ret (some (GoError.wrapError
          "failed to unmarshal distribution genesis state: invalid character"
          (GoError.external "invalid character")))
      ∧ (callsSince demoWorld (demoModule.toAppModuleBasic.ValidateGenesis demoExt demoCodec ()
          [7] demoWorld).2).filterMap Call.validatedState = []
      ∧ (demoModule.toAppModuleBasic.ValidateGenesis demoExt demoCodec () [123, 1, 2]
          demoWorld).1 = Outcome.ret none
      ∧ (demoModule.toAppModuleBasic.ValidateGenesis demoExt demoCodec () [123, 1, 2, 3, 4, 5]
          demoWorld).1 = Outcome.ret (some (GoError.external "too many entries")) :=
  have h := ValidateGenesis_performs_validation demoExt demoModule.toAppModuleBasic demoCodec ()
    [7] demoWorld
  ⟨by decide,
    (h.2.1 (GoError.external "invalid character") rfl).elim (fun _ he => he.2.2.2),
    ((ValidateGenesis_performs_validation demoExt demoModule.toAppModuleBasic demoCodec ()
      [123, 1, 2] demoWorld).2.2.1 rfl).1,
    ((ValidateGenesis_performs_validation demoExt demoModule.toAppModuleBasic demoCodec ()
      [123, 1, 2, 3, 4, 5] demoWorld).2.2.1 rfl).1⟩

/-! ## Dependency injection -/

/-- The calls of `provideModule`: none when `Config` is nil (the dereference
panics first), otherwise the single call of `keeper.NewKeeper` with the
resolved fee collector name and authority. -/
theorem provideModule_calls {S : Sig} {σ : Type} (ext : Externals S σ) (inp : distrInputs S)
    (w : World S σ) :
    callsSince w (provideModule ext inp w).2 =
      match inp.Config with
      | none => []
      | some config =>
        [Call.NewKeeper
          { cdc := inp.Cdc
            key := inp.Key
            ak := inp.AccountKeeper
            bk := inp.BankKeeper
            sk := inp.StakingKeeper
            feeCollectorName :=
              if config.FeeCollectorName = "" then ext.FeeCollectorName
              else config.FeeCollectorName
            authority := ext.AccAddressString
              (match inp.Authority.index inp.ModuleKey.Name with
                | some authority => authority
                | none => ext.NewModuleAddress ext.govModuleName) }] := by
  unfold provideModule
  cases hc : inp.Config with
  | none => simp [goPanic, callsSince]
  | some config =>
    simp only [Go.bind_apply, Go.call_apply, beq_iff_eq]
    cases hk : (ext.NewKeeper _ w.store).1 <;>
      simp only [hk, Go.pure_apply] <;> exact callsSince_append w _ _

/-- The run of `provideModule` on a non-nil `Config`: `keeper.NewKeeper` is
applied, on the store as it was, to the argument list `args` holding the
resolved fee collector name and authority string; its panic goes through, and
on its return the outputs are built around the keeper it returned. -/
theorem provideModule_run {S : Sig} {σ : Type} (ext : Externals S σ) (inp : distrInputs S)
    (w : World S σ) (config : ModuleConfig) (args : NewKeeperArgs S)
    (hc : inp.Config = some config)
    (hargs : args =
      { cdc := inp.Cdc
        key := inp.Key
        ak := inp.AccountKeeper
        bk := inp.BankKeeper
        sk := inp.StakingKeeper
        feeCollectorName :=
          if config.FeeCollectorName = "" then ext.FeeCollectorName
          else config.FeeCollectorName
        authority :=
          match inp.Authority.index inp.ModuleKey.Name with
          | some authority => ext.AccAddressString authority
          | none => ext.AccAddressString (ext.NewModuleAddress ext.govModuleName) }) :
    provideModule ext inp w =
      ((match (ext.NewKeeper args w.store).1 with
        | Outcome.ret k =>
          Outcome.ret
            { DistrKeeper := k
              Module := NewAppModule inp.Cdc k inp.AccountKeeper inp.BankKeeper
                inp.StakingKeeper inp.LegacySubspace
              Hooks := ext.Hooks k
              GovHandler := (ext.NewCommunityPoolSpendProposalHandler k, ext.RouterKey) }
        | Outcome.panicked v => Outcome.panicked v),
       { store := (ext.NewKeeper args w.store).2, calls := w.calls ++ [Call.NewKeeper args] }) := by
  have hauth : (match inp.Authority.index inp.ModuleKey.Name with
      | some authority => ext.AccAddressString authority
      | none => ext.AccAddressString (ext.NewModuleAddress ext.govModuleName)) =
      ext.AccAddressString (match inp.Authority.index inp.ModuleKey.Name with
        | some authority => authority
        | none => ext.NewModuleAddress ext.govModuleName) := by
    cases inp.Authority.index inp.ModuleKey.Name <;> rfl
  rw [hauth] at hargs
  subst hargs
  unfold provideModule
  simp only [hc, Go.bind_apply, Go.call_apply, beq_iff_eq]
  cases hk : (ext.NewKeeper _ w.store).1 <;> simp only [hk, Go.pure_apply]

/-- The run of `provideModule` on a nil `Config`: the dereference panics and
nothing is called. -/
theorem provideModule_nil_config {S : Sig} {σ : Type} (ext : Externals S σ)
    (inp : distrInputs S) (w : World S σ) (hc : inp.Config = none) :
    provideModule ext inp w = (Outcome.panicked nilDereference, w) := by
  unfold provideModule
  simp only [hc, goPanic]

/-- C4 as stated fails: the authority map binds the module's own key, to the
governance module address.  The key is present, and the authority string
handed to `keeper.NewKeeper` is nevertheless the `String()` of the governance
module address, so that string does not tell that the key was absent.  The
demo `NewKeeper` appends the string it receives to the store `[1, 2, 3]` and
returns its length: it received `gov` (bytes 103, 111, 118). -/
theorem provideModule_authority_counterexample :
    (demoInputs (GoMap.mk [("distribution", demoExt.NewModuleAddress demoExt.govModuleName)])
        ).Authority.index
          (demoInputs (GoMap.mk [("distribution",
            demoExt.NewModuleAddress demoExt.govModuleName)])).ModuleKey.Name
        = some [103, 111, 118]
      ∧ newKeeperAuthorities (callsSince demoWorld
          (provideModule demoExt
            (demoInputs (GoMap.mk [("distribution",
              demoExt.NewModuleAddress demoExt.govModuleName)])) demoWorld).2)
        = [demoExt.AccAddressString (demoExt.NewModuleAddress demoExt.govModuleName)]
      ∧ ¬ (newKeeperAuthorities (callsSince demoWorld
            (provideModule demoExt
              (demoInputs (GoMap.mk [("distribution",
                demoExt.NewModuleAddress demoExt.govModuleName)])) demoWorld).2)
          = [demoExt.AccAddressString (demoExt.NewModuleAddress demoExt.govModuleName)]
          ↔ (demoInputs (GoMap.mk [("distribution",
                demoExt.NewModuleAddress demoExt.govModuleName)])).Authority.index
              "distribution" = none)
      ∧ (provideModule demoExt
          (demoInputs (GoMap.mk [("distribution",
            demoExt.NewModuleAddress demoExt.govModuleName)])) demoWorld).2.store
        = [1, 2, 3, 103, 111, 118]
      ∧ (match (provideModule demoExt
          (demoInputs (GoMap.mk [("distribution",
            demoExt.NewModuleAddress demoExt.govModuleName)])) demoWorld).1 with
        | Outcome.ret out => out.DistrKeeper = (3 : Nat)
        | Outcome.panicked _ => False) := by
  refine ⟨?_, ?_, ?_, ?_, ?_⟩
  · decide
  · decide
  · decide
  · decide
  · exact (rfl : (3 : Nat) = 3)

/-- C4, amended (authority resolution in `provideModule`).  For every input,
nil authority map included: `keeper.NewKeeper` is called once (not at all when
the nil `Config` is dereferenced first), and the authority string it receives
is the `String()` of the map entry under the module's own key name when that
key is present, and the `String()` of the governance module address
`authtypes.NewModuleAddress(govtypes.ModuleName)` when it is absent.  Hence
the string is that of the governance address if and only if the key is absent
or its entry has the same `String()`; a nil map gives the governance address;
and replacing the map by one with the same entry (or absence) under the
module's key changes nothing.  The string is passed, not only recorded: with
`args` the argument list carrying that authority string, the store
`provideModule` leaves is the one `keeper.NewKeeper` left when applied to
`args` on the store as it was, a panic of `keeper.NewKeeper` on `args` goes
through, and on its return the outputs are built around the keeper it
returned; on a nil `Config` nothing is called and the store is untouched. -/
theorem provideModule_authority {S : Sig} {σ : Type} (ext : Externals S σ)
    (inp : distrInputs S) (w : World S σ) :
    newKeeperAuthorities (callsSince w (provideModule ext inp w).2) =
        (match inp.Config with
          | none => []
          | some _ =>
            [match inp.Authority.index inp.ModuleKey.Name with
              | some authority => ext.AccAddressString authority
              | none => ext.AccAddressString (ext.NewModuleAddress ext.govModuleName)])
      ∧ (∀ s ∈ newKeeperAuthorities (callsSince w (provideModule ext inp w).2),
          (s = ext.AccAddressString (ext.NewModuleAddress ext.govModuleName) ↔
            (inp.Authority.index inp.ModuleKey.Name = none ∨
              ∃ authority, inp.Authority.index inp.ModuleKey.Name = some authority ∧
                ext.AccAddressString authority =
                  ext.AccAddressString (ext.NewModuleAddress ext.govModuleName))))
      ∧ (inp.Authority = GoMap.nil →
          ∀ s ∈ newKeeperAuthorities (callsSince w (provideModule ext inp w).2),
            s = ext.AccAddressString (ext.NewModuleAddress ext.govModuleName))
      ∧ (∀ other : GoMap S.AccAddress,
          other.index inp.ModuleKey.Name = inp.Authority.index inp.ModuleKey.Name →
          newKeeperAuthorities
              (callsSince w (provideModule ext { inp with Authority := other } w).2) =
            newKeeperAuthorities (callsSince w (provideModule ext inp w).2))
      ∧ (inp.Config = none → provideModule ext inp w = (Outcome.panicked nilDereference, w))
      ∧ (∀ (config : ModuleConfig) (args : NewKeeperArgs S),
          inp.Config = some config →
          args =
            { cdc := inp.Cdc
              key := inp.Key
              ak := inp.AccountKeeper
              bk := inp.BankKeeper
              sk := inp.StakingKeeper
              feeCollectorName :=
                if config.FeeCollectorName = "" then ext.FeeCollectorName
                else config.FeeCollectorName
              authority :=
                match inp.Authority.index inp.ModuleKey.Name with
                | some authority => ext.AccAddressString authority
                | none => ext.AccAddressString (ext.NewModuleAddress ext.govModuleName) } →
          callsSince w (provideModule ext inp w).2 = [Call.NewKeeper args]
            ∧ (provideModule ext inp w).2.store = (ext.NewKeeper args w.store).2
            ∧ (provideModule ext inp w).1 =
                (match (ext.NewKeeper args w.store).1 with
                  | Outcome.ret k =>
                    Outcome.ret
                      { DistrKeeper := k
                        Module := NewAppModule inp.Cdc k inp.AccountKeeper inp.BankKeeper
                          inp.StakingKeeper inp.LegacySubspace
                        Hooks := ext.Hooks k
                        GovHandler :=
                          (ext.NewCommunityPoolSpendProposalHandler k, ext.RouterKey) }
                  | Outcome.panicked v => Outcome.panicked v)) := by
  have key : ∀ i : distrInputs S,
      newKeeperAuthorities (callsSince w (provideModule ext i w).2) =
        (match i.Config with
          | none => []
          | some _ =>
            [match i.Authority.index i.ModuleKey.Name with
              | some authority => ext.AccAddressString authority
              | none => ext.AccAddressString (ext.NewModuleAddress ext.govModuleName)]) := by
    intro i
    rw [provideModule_calls ext i w]
    cases i.Config with
    | none => rfl
    | some config =>
      cases i.Authority.index i.ModuleKey.Name <;> rfl
  refine ⟨key inp, ?_, ?_, ?_, provideModule_nil_config ext inp w, ?_⟩
  · intro s hs
    rw [key inp] at hs
    cases hc : inp.Config with
    | none => simp [hc] at hs
    | some config =>
      cases hi : inp.Authority.index inp.ModuleKey.Name with
      | none =>
        simp only [hc, hi, List.mem_singleton] at hs
        simp [hs]
      | some a =>
        simp only [hc, hi, List.mem_singleton] at hs
        simp [hs]
  · intro hnil s hs
    rw [key inp] at hs
    cases hc : inp.Config with
    | none => simp [hc] at hs
    | some config =>
      simp only [hc, hnil, GoMap.index, List.mem_singleton] at hs
      exact hs
  · intro other hother
    rw [key inp, key { inp with Authority := other }]
    simp only [hother]
  · intro config args hc hargs
    rw [provideModule_run ext inp w config args hc hargs]
    exact ⟨callsSince_append w _ _, rfl, rfl⟩

/-- C4, amended, at concrete inputs of the demo world, whose `NewKeeper` appends
the string it receives to the store `[1, 2, 3]`: the nil map and a map binding
only another key give the governance address `gov`; a map binding the module's
key to the bytes of `ab` gives `ab` (bytes 97, 98), whatever else it binds. -/
theorem provideModule_authority_witness :
    newKeeperAuthorities (callsSince demoWorld
        (provideModule demoExt (demoInputs GoMap.nil) demoWorld).2) = ["gov"]
      ∧ newKeeperAuthorities (callsSince demoWorld
        (provideModule demoExt (demoInputs (GoMap.mk [("bank", [97])])) demoWorld).2) = ["gov"]
      ∧ newKeeperAuthorities (callsSince demoWorld
        (provideModule demoExt
          (demoInputs (GoMap.mk [("bank", [97]), ("distribution", [97, 98])])) demoWorld).2)
          = ["ab"]
      ∧ (provideModule demoExt (demoInputs GoMap.nil) demoWorld).2.store
          = [1, 2, 3, 103, 111, 118]
      ∧ (provideModule demoExt
          (demoInputs (GoMap.mk [("bank", [97]), ("distribution", [97, 98])])) demoWorld).2.store
          = [1, 2, 3, 97, 98] :=
  ⟨(provideModule_authority demoExt (demoInputs GoMap.nil) demoWorld).1.trans (by decide),
    (provideModule_authority demoExt (demoInputs (GoMap.mk [("bank", [97])])) demoWorld).1.trans
      (by decide),
    (provideModule_authority demoExt
      (demoInputs (GoMap.mk [("bank", [97]), ("distribution", [97, 98])])) demoWorld).1.trans
      (by decide),
    ((provideModule_authority demoExt (demoInputs GoMap.nil)
      demoWorld).2.2.2.2.2 _ _ rfl rfl).2.1.trans (by decide),
    ((provideModule_authority demoExt
      (demoInputs (GoMap.mk [("bank", [97]), ("distribution", [97, 98])]))
      demoWorld).2.2.2.2.2 _ _ rfl rfl).2.1.trans (by decide)⟩

end Distribution
